import Mathlib

/-!
Verification of the instrumented HTTP handler of `go-app/main.go`
(egasimov/grafana-all-in-one) against its natural-language specification.

The Go program is embedded shallowly: the per-request handler
`handleRequest` becomes a pure function from an input record (the request,
the trace id chosen by the tracer, the pprof label sets in scope, and two
monotonic-clock readings) to a run result holding the ordered list of
observable telemetry events, the HTTP response, and the goroutine pprof
label states.  `main`'s startup sequence becomes a list of startup events
parameterised by the process environment and by the (discarded) result of
the pyroscope agent start.
-/

/-- An inbound HTTP request as seen by the handler: the fields
`handleRequest` reads (`r.URL.Path`, `r.Method`, `r.RemoteAddr`) plus the
headers and body it never touches. -/
structure Request where
  path : String
  method : String
  remoteAddr : String
  headers : List (String × String)
  body : String
deriving DecidableEq

/-- Hexadecimal digit character (lowercase), as produced by Go's
`encoding/hex` used by `TraceID.String()`. -/
def hexDigit (n : Nat) : Char :=
  if n < 10 then Char.ofNat (48 + n) else Char.ofNat (87 + (n % 16))

/-- Two lowercase hex characters for one byte. -/
def byteHex (b : Nat) : List Char :=
  [hexDigit (b / 16 % 16), hexDigit (b % 16)]

/-- Rendering of a trace id (a byte sequence) as a fixed-width lowercase
hexadecimal string, as `span.SpanContext().TraceID().String()` does. -/
def traceIdHex (bs : List Nat) : String :=
  String.mk (bs.map byteHex).flatten

/-- A pprof label lookup (`pprof.Label(ctx, key)`): association-list find. -/
def labelGet (ls : List (String × String)) (k : String) : Option String :=
  (ls.find? (fun p => p.1 = k)).map (fun p => p.2)

/-- Adding one label to a label set, as `pprof.WithLabels` does: an
existing binding for the key is overridden, otherwise the binding is
appended.  Label sets are key-unique maps in `runtime/pprof`, so a
first-occurrence upsert is a faithful rendering. -/
def labelSet (ls : List (String × String)) (k v : String) :
    List (String × String) :=
  match ls with
  | [] => [(k, v)]
  | p :: t => if p.1 = k then (k, v) :: t else p :: labelSet t k v

/-- Character allowed after the first character of an OTel instrument name
(modelled from the OTel Go SDK's instrument name validation: alphanumeric
or one of underscore, dot, dash, slash). -/
def instrumentNameChar (c : Char) : Bool :=
  c.isAlphanum || c = '_' || c = '.' || c = '-' || c = '/'

/-- Instrument-name validity, modelled from the OTel Go SDK
(`sdk/metric`): nonempty, at most 255 characters, first character an ASCII
letter, remaining characters alphanumeric or `_` `.` `-` `/`.  This is the
only failure source of `meter.Int64Counter` / `meter.Float64Histogram` in
the SDK for the default meter configuration used by this program. -/
def validInstrumentName (s : String) : Bool :=
  match s.data with
  | [] => false
  | c :: cs => c.isAlpha && s.length ≤ 255 && cs.all instrumentNameChar

/-- Result of `meter.Int64Counter` / `meter.Float64Histogram`: ok for a
valid instrument name, an error otherwise (modelled from the OTel Go SDK). -/
def instrumentCreateResult (name : String) : Except String Unit :=
  if validInstrumentName name then Except.ok () else Except.error name

/-- Kinds of metric instrument the program creates. -/
inductive InstrumentKind
  | counter
  | histogram
deriving DecidableEq

/-- Observable telemetry events of one `handleRequest` run, in program
order. -/
inductive Ev
  | spanStart (traceId : String)
  | setGoroutineLabels (ls : List (String × String))
  | logInfo (msg : String) (fields : List (String × String))
  | workload
  | instrumentCreate (kind : InstrumentKind) (name descr unit : String)
  | counterAdd (amount : Int) (attrs : List (String × String))
  | histogramRecord (value : Int) (attrs : List (String × String))
  | respondHeader (key value : String)
  | respondStatus (code : Nat)
  | respondBody (body : String)
  | spanEnd
  | fatalLog (msg : String)
deriving DecidableEq

/-- The HTTP response the handler writes. -/
structure Response where
  status : Nat
  contentType : String
  body : String
deriving DecidableEq

/-- Input of one `handleRequest` invocation: the request, the trace id the
tracer assigns to the new span (16 bytes in Go; a byte list here), the
pprof label set carried by `r.Context()`, the goroutine pprof labels in
force when the handler starts, and the two monotonic-clock readings taken
at `startTime := time.Now()` and at `time.Since(startTime)`
(nanoseconds). -/
structure HandlerInput where
  req : Request
  traceIdBytes : List Nat
  ctxLabels : List (String × String)
  goroutineLabels0 : List (String × String)
  tStartNs : Int
  tMeasureNs : Int
deriving DecidableEq

/-- The duration value the handler records:
`float64(time.Since(startTime).Milliseconds())`.  Go's
`Duration.Milliseconds` divides nanoseconds by 10^6 with truncation toward
zero (`Int.div`); the `float64` conversion is exact for every magnitude
below 2^53 ms and is therefore dropped from the model. -/
def durationMsOf (inp : HandlerInput) : Int :=
  (inp.tMeasureNs - inp.tStartNs).tdiv 1000000

/-- Result of one `handleRequest` run: the ordered event list, the
response (none when the run aborts the process), the goroutine label set
in force during the workload, the goroutine label set in force between
handler entry and its `SetGoroutineLabels` call, the goroutine label set
left behind after the handler exits, and whether the run completed. -/
structure RunResult where
  events : List Ev
  response : Option Response
  workLabels : List (String × String)
  preAttachLabels : List (String × String)
  finalLabels : List (String × String)
  completed : Bool
deriving DecidableEq

/-- Metric attribute set built by the handler:
`{path, method, trace_id}`. -/
def goAttrs (inp : HandlerInput) : List (String × String) :=
  [("path", inp.req.path),
   ("method", inp.req.method),
   ("trace_id", traceIdHex inp.traceIdBytes)]

/-- Shallow embedding of `handleRequest` (go-app/main.go, lines 102-176).
Program order: span start (deferred `span.End`), derive the trace id,
merge a `trace_id` label into the request context labels and set them on
the goroutine (deferred reset to `context.Background()`, whose label set
is empty), capture `startTime`, start log with trace id, synthetic
workload (allocation plus sleep; total, never fails), build attributes,
create the counter (a `logger.Fatal` — `os.Exit`, skipping both deferred
calls — on error), add 1, compute the duration, create the histogram
(same fatal policy), record the duration, completion log WITHOUT a
trace id field, write header, status 200, fixed body; then the deferred
label reset and `span.End` run in LIFO order. -/
def go_handleRequest (inp : HandlerInput) : RunResult :=
  let tid := traceIdHex inp.traceIdBytes
  let lbls := labelSet inp.ctxLabels "trace_id" tid
  let startLog : List (String × String) :=
    [("path", inp.req.path),
     ("method", inp.req.method),
     ("remote_addr", inp.req.remoteAddr),
     ("trace_id", tid)]
  let durMs := durationMsOf inp
  let endLog : List (String × String) :=
    [("path", inp.req.path),
     ("method", inp.req.method),
     ("duration_ms", toString durMs),
     ("status", "200")]
  let pre : List Ev :=
    [Ev.spanStart tid,
     Ev.setGoroutineLabels lbls,
     Ev.logInfo "handling request" startLog,
     Ev.workload]
  match instrumentCreateResult "http.requests.total" with
  | Except.error _ =>
      { events := pre ++
          [Ev.instrumentCreate InstrumentKind.counter "http.requests.total"
             "Total number of HTTP requests" "",
           Ev.fatalLog "failed to create request counter"],
        response := none,
        workLabels := lbls,
        preAttachLabels := inp.goroutineLabels0,
        finalLabels := lbls,
        completed := false }
  | Except.ok _ =>
    match instrumentCreateResult "http.request.duration" with
    | Except.error _ =>
        { events := pre ++
            [Ev.instrumentCreate InstrumentKind.counter "http.requests.total"
               "Total number of HTTP requests" "",
             Ev.counterAdd 1 (goAttrs inp),
             Ev.instrumentCreate InstrumentKind.histogram
               "http.request.duration" "HTTP request duration" "ms",
             Ev.fatalLog "failed to create request duration histogram"],
          response := none,
          workLabels := lbls,
          preAttachLabels := inp.goroutineLabels0,
          finalLabels := lbls,
          completed := false }
    | Except.ok _ =>
        { events := pre ++
            [Ev.instrumentCreate InstrumentKind.counter "http.requests.total"
               "Total number of HTTP requests" "",
             Ev.counterAdd 1 (goAttrs inp),
             Ev.instrumentCreate InstrumentKind.histogram
               "http.request.duration" "HTTP request duration" "ms",
             Ev.histogramRecord durMs (goAttrs inp),
             Ev.logInfo "request completed" endLog,
             Ev.respondHeader "Content-Type" "text/plain",
             Ev.respondStatus 200,
             Ev.respondBody "Hello, World!",
             Ev.setGoroutineLabels [],
             Ev.spanEnd],
          response := some { status := 200, contentType := "text/plain",
                             body := "Hello, World!" },
          workLabels := lbls,
          preAttachLabels := inp.goroutineLabels0,
          finalLabels := [],
          completed := true }

/-- Pyroscope agent configuration passed by `main` to `pyroscope.Start`:
both fields are string literals in the source. -/
structure PyroscopeConfig where
  applicationName : String
  serverAddress : String
deriving DecidableEq

/-- The pyroscope configuration `main` builds, as a function of the
process environment: the environment is ignored, the fields are the
hardcoded literals of go-app/main.go lines 186-193. -/
def go_pyroscopeConfig (env : String → String) : PyroscopeConfig :=
  { applicationName := "my-go-app",
    serverAddress := "http://localhost:4040" }

/-- Collector endpoint resolution of `main`
(go-app/main.go lines 195-198): read `OTEL_COLLECTOR_ENDPOINT`
(Go's `os.Getenv` yields the empty string when the variable is absent)
and fall back to `localhost:4318` when empty. -/
def go_otelCollectorEndpoint (env : String → String) : String :=
  let v := env "OTEL_COLLECTOR_ENDPOINT"
  if v = "" then "localhost:4318" else v

/-- The address `main` listens on: the literal `":8080"` passed to
`http.ListenAndServe` (go-app/main.go line 233); no environment variable
is consulted. -/
def go_listenAddr (env : String → String) : String := ":8080"

/-- Observable events of `main`'s startup sequence, in program order.
`instrumentCreate` is in the vocabulary so that the absence of
startup-time instrument creation is a statement, not a typing accident. -/
inductive StartupEv
  | setMutexProfileFraction (n : Int)
  | setBlockProfileRate (n : Int)
  | setCPUProfileRate (n : Int)
  | pyroscopeStart (cfg : PyroscopeConfig)
  | readEnv (key : String)
  | initLogger
  | replaceGlobals
  | initTracer (endpoint : String)
  | initMeter (endpoint : String)
  | instrumentCreate (kind : InstrumentKind) (name : String)
  | handleFunc (pattern : String)
  | listenAndServe (addr : String)
deriving DecidableEq

/-- Shallow embedding of `main`'s startup (go-app/main.go lines 178-236)
up to and including the blocking `ListenAndServe` call.  `pyroResult` is
the value pair returned by `pyroscope.Start`; the source discards both
components (`_, _ =`), so the event list does not depend on it.  Provider
construction is taken as succeeding (its failure panics before any
request is served and concerns no claim). -/
def go_mainStartup (env : String → String)
    (pyroResult : Except String Unit) : List StartupEv :=
  [StartupEv.setMutexProfileFraction 1,
   StartupEv.setBlockProfileRate 1,
   StartupEv.setCPUProfileRate 100,
   StartupEv.pyroscopeStart (go_pyroscopeConfig env),
   StartupEv.readEnv "OTEL_COLLECTOR_ENDPOINT",
   StartupEv.initLogger,
   StartupEv.replaceGlobals,
   StartupEv.initTracer (go_otelCollectorEndpoint env),
   StartupEv.initMeter (go_otelCollectorEndpoint env),
   StartupEv.handleFunc "/hello",
   StartupEv.listenAndServe (go_listenAddr env)]

/-- Number of instrument-creation events in a handler event list. -/
def instrumentCreates (evs : List Ev) : Nat :=
  (evs.filter (fun e =>
    match e with
    | Ev.instrumentCreate _ _ _ _ => true
    | _ => false)).length

/-- Number of instrument-creation events in a startup event list. -/
def startupInstrumentCreates (evs : List StartupEv) : Nat :=
  (evs.filter (fun e =>
    match e with
    | StartupEv.instrumentCreate _ _ => true
    | _ => false)).length

/-- The log entries of a run: message paired with structured fields, in
emission order. -/
def logEntries (r : RunResult) : List (String × List (String × String)) :=
  r.events.filterMap (fun e =>
    match e with
    | Ev.logInfo m f => some (m, f)
    | _ => none)

/-- Field lookup in a structured log entry. -/
def logField (fields : List (String × String)) (k : String) :
    Option String :=
  (fields.find? (fun p => p.1 = k)).map (fun p => p.2)

/-- The counter observations of a run: amount and attribute set of each
`Add` call, in order. -/
def counterAdds (r : RunResult) : List (Int × List (String × String)) :=
  r.events.filterMap (fun e =>
    match e with
    | Ev.counterAdd n a => some (n, a)
    | _ => none)

/-- The histogram observations of a run: value and attribute set of each
`Record` call, in order. -/
def histogramRecords (r : RunResult) : List (Int × List (String × String)) :=
  r.events.filterMap (fun e =>
    match e with
    | Ev.histogramRecord v a => some (v, a)
    | _ => none)

/-- The trace ids of the spans a run starts, in order. -/
def spanStarts (r : RunResult) : List String :=
  r.events.filterMap (fun e =>
    match e with
    | Ev.spanStart t => some t
    | _ => none)

/-- Number of `span.End` events of a run. -/
def spanEnds (r : RunResult) : Nat :=
  (r.events.filter (fun e =>
    match e with
    | Ev.spanEnd => true
    | _ => false)).length

/-- A concrete handler input used by counterexamples and witnesses:
a GET of `/hello` with a 16-byte ascending trace id. -/
def sampleInput : HandlerInput :=
  { req := { path := "/hello", method := "GET",
             remoteAddr := "10.0.0.7:51234", headers := [], body := "" },
    traceIdBytes := [0, 1, 2, 3, 4, 5, 6, 7, 8, 9, 10, 11, 12, 13, 14, 15],
    ctxLabels := [],
    goroutineLabels0 := [],
    tStartNs := 100,
    tMeasureNs := 2000100 }

/-- The fixed response the handler writes: status 200, plain text,
`Hello, World!`. -/
def helloResponse : Response :=
  { status := 200, contentType := "text/plain", body := "Hello, World!" }

/-- Second concrete handler input (a POST with a different trace id),
entering with the empty goroutine label set left by a finished earlier
request. -/
def sampleInputB : HandlerInput :=
  { req := { path := "/hello", method := "POST",
             remoteAddr := "10.0.0.8:51235", headers := [], body := "x" },
    traceIdBytes := [15, 14, 13, 12, 11, 10, 9, 8, 7, 6, 5, 4, 3, 2, 1, 0],
    ctxLabels := [],
    goroutineLabels0 := [],
    tStartNs := 500,
    tMeasureNs := 7000500 }

/-- Concrete handler input whose goroutine carries a pre-existing pprof
label when the handler starts. -/
def sampleInputPrior : HandlerInput :=
  { req := { path := "/hello", method := "GET",
             remoteAddr := "10.0.0.9:51236", headers := [], body := "" },
    traceIdBytes := [1, 1, 2, 3, 5, 8, 13, 21, 34, 55, 89, 144, 233, 121, 98, 219],
    ctxLabels := [],
    goroutineLabels0 := [("tenant", "alice")],
    tStartNs := 0,
    tMeasureNs := 5000000 }

lemma labelGet_labelSet (ls : List (String × String)) (k v : String) :
    labelGet (labelSet ls k v) k = some v := by
  induction ls with
  | nil => simp [labelSet, labelGet]
  | cons p t ih =>
    by_cases h : p.1 = k
    · simp [labelSet, h, labelGet]
    · simpa [labelSet, h, labelGet] using ih

lemma go_handleRequest_def (inp : HandlerInput) :
    go_handleRequest inp =
      { events :=
          [Ev.spanStart (traceIdHex inp.traceIdBytes),
           Ev.setGoroutineLabels
             (labelSet inp.ctxLabels "trace_id" (traceIdHex inp.traceIdBytes)),
           Ev.logInfo "handling request"
             [("path", inp.req.path),
              ("method", inp.req.method),
              ("remote_addr", inp.req.remoteAddr),
              ("trace_id", traceIdHex inp.traceIdBytes)],
           Ev.workload,
           Ev.instrumentCreate InstrumentKind.counter "http.requests.total"
             "Total number of HTTP requests" "",
           Ev.counterAdd 1 (goAttrs inp),
           Ev.instrumentCreate InstrumentKind.histogram
             "http.request.duration" "HTTP request duration" "ms",
           Ev.histogramRecord (durationMsOf inp) (goAttrs inp),
           Ev.logInfo "request completed"
             [("path", inp.req.path),
              ("method", inp.req.method),
              ("duration_ms", toString (durationMsOf inp)),
              ("status", "200")],
           Ev.respondHeader "Content-Type" "text/plain",
           Ev.respondStatus 200,
           Ev.respondBody "Hello, World!",
           Ev.setGoroutineLabels [],
           Ev.spanEnd],
        response := some helloResponse,
        workLabels := labelSet inp.ctxLabels "trace_id"
          (traceIdHex inp.traceIdBytes),
        preAttachLabels := inp.goroutineLabels0,
        finalLabels := [],
        completed := true } := rfl

/-- C1: the claim as stated is false at a concrete request.  The handler
emits two log entries; the start entry carries the correlation id
(`trace_id`), but the completion entry carries no `trace_id` field at
all, so the correlation id is not present in both log lines. -/
theorem c1_counterexample :
    (logEntries (go_handleRequest sampleInput)).map
        (fun e => logField e.2 "trace_id") =
      [some "000102030405060708090a0b0c0d0e0f", none] := by decide

/-- C1 (amended): the correlation id (the span's trace id rendered as
hex) is present in the start log entry and in the profiling label active
during the workload, and equals the span's trace id; the completion log
entry consists of exactly the path, method, duration and status fields,
with no correlation id field. -/
theorem c1_correlation_amended (inp : HandlerInput) :
    spanStarts (go_handleRequest inp) = [traceIdHex inp.traceIdBytes] ∧
    logEntries (go_handleRequest inp) =
      [("handling request",
        [("path", inp.req.path),
         ("method", inp.req.method),
         ("remote_addr", inp.req.remoteAddr),
         ("trace_id", traceIdHex inp.traceIdBytes)]),
       ("request completed",
        [("path", inp.req.path),
         ("method", inp.req.method),
         ("duration_ms", toString (durationMsOf inp)),
         ("status", "200")])] ∧
    (logEntries (go_handleRequest inp)).map
        (fun e => (e.1, logField e.2 "trace_id")) =
      [("handling request", some (traceIdHex inp.traceIdBytes)),
       ("request completed", none)] ∧
    labelGet (go_handleRequest inp).workLabels "trace_id" =
      some (traceIdHex inp.traceIdBytes) := by
  refine ⟨rfl, rfl, ?_, ?_⟩
  · simp [go_handleRequest_def, logEntries, logField]
  · simp [go_handleRequest_def, labelGet_labelSet]

/-- C2: the claim as stated is false.  At startup `main` creates no
metric instrument (it only builds the providers), while a single handler
invocation performs two instrument-creation calls — the claim requires
the creations to happen exactly once at startup and never during request
handling. -/
theorem c2_counterexample :
    startupInstrumentCreates
        (go_mainStartup (fun _ => "") (Except.ok ())) = 0 ∧
    instrumentCreates (go_handleRequest sampleInput).events = 2 := by
  decide

/-- C2 (amended): the counter and the histogram are created inside
`handleRequest` on every invocation — one counter-creation call and one
histogram-creation call per request, with the fixed names, descriptions
and millisecond unit — and no instrument is created at startup, for any
environment and any pyroscope start result. -/
theorem c2_instruments_amended (env : String → String)
    (r : Except String Unit) (inp : HandlerInput) :
    startupInstrumentCreates (go_mainStartup env r) = 0 ∧
    (go_handleRequest inp).events.filter (fun e =>
        match e with
        | Ev.instrumentCreate _ _ _ _ => true
        | _ => false) =
      [Ev.instrumentCreate InstrumentKind.counter "http.requests.total"
         "Total number of HTTP requests" "",
       Ev.instrumentCreate InstrumentKind.histogram
         "http.request.duration" "HTTP request duration" "ms"] := by
  exact ⟨rfl, rfl⟩

/-- C3: the claim as stated is false.  With every environment variable
(including `PORT`) set to `9999`, the listen address is still the
hardcoded `:8080`, so the listen port is not selected by any environment
variable. -/
theorem c3_counterexample :
    go_listenAddr (fun _ => "9999") = ":8080" ∧
    go_listenAddr (fun _ => "9999") ≠ ":9999" := by decide

/-- C3 (amended): the collector endpoint is selected by the
`OTEL_COLLECTOR_ENDPOINT` environment variable with hardcoded fallback
`localhost:4318` when it is absent (empty), while the HTTP listen address
is the hardcoded `:8080` regardless of the environment. -/
theorem c3_config_amended (env : String → String) :
    go_otelCollectorEndpoint env =
      (if env "OTEL_COLLECTOR_ENDPOINT" = "" then "localhost:4318"
       else env "OTEL_COLLECTOR_ENDPOINT") ∧
    go_listenAddr env = ":8080" := ⟨rfl, rfl⟩

/-- C4: every `handleRequest` invocation opens exactly one span and
closes exactly one span.  The only conditional exits of the source are
the instrument-creation failure branches, and instrument creation always
succeeds for the program's two fixed (valid) instrument names, so the
single return path with its deferred `span.End` is taken on every run. -/
theorem c4_span_balanced (inp : HandlerInput) :
    (spanStarts (go_handleRequest inp)).length = 1 ∧
    spanEnds (go_handleRequest inp) = 1 := ⟨rfl, rfl⟩

/-- C5: the profiling label attached at request start is detached when
the request finishes: request A leaves the empty goroutine label set
behind, and an unrelated request B started after A's detach (inheriting
A's final goroutine labels, with a fresh request context) observes no
label of A — before B attaches its own labels the goroutine label set is
empty, and during B's workload the label set is exactly B's own
`trace_id` binding. -/
theorem c5_label_detach (A B : HandlerInput)
    (hB0 : B.goroutineLabels0 = (go_handleRequest A).finalLabels)
    (hBctx : B.ctxLabels = []) :
    (go_handleRequest A).finalLabels = [] ∧
    (go_handleRequest B).preAttachLabels = [] ∧
    (go_handleRequest B).workLabels =
      [("trace_id", traceIdHex B.traceIdBytes)] := by
  refine ⟨rfl, ?_, ?_⟩
  · rw [go_handleRequest_def]
    simpa [go_handleRequest_def] using hB0
  · rw [go_handleRequest_def]
    simp [hBctx, labelSet]

/-- C5 witness: the guarantee instantiated at two concrete back-to-back
requests. -/
theorem c5_label_detach_witness :
    (go_handleRequest sampleInput).finalLabels = [] ∧
    (go_handleRequest sampleInputB).preAttachLabels = [] ∧
    (go_handleRequest sampleInputB).workLabels =
      [("trace_id", traceIdHex sampleInputB.traceIdBytes)] :=
  c5_label_detach sampleInput sampleInputB (by decide) (by decide)

/-- C6: every completed request adds exactly 1 to the counter and records
exactly one histogram value, both tagged with the attribute set
`{path, method, trace_id}` whose `trace_id` equals the trace id of the
span the request started. -/
theorem c6_metrics_once (inp : HandlerInput) :
    counterAdds (go_handleRequest inp) = [(1, goAttrs inp)] ∧
    histogramRecords (go_handleRequest inp) =
      [(durationMsOf inp, goAttrs inp)] ∧
    goAttrs inp =
      [("path", inp.req.path),
       ("method", inp.req.method),
       ("trace_id", traceIdHex inp.traceIdBytes)] ∧
    spanStarts (go_handleRequest inp) = [traceIdHex inp.traceIdBytes] :=
  ⟨rfl, rfl, rfl, rfl⟩

/-- C7: under a monotone clock (Go's `time.Since` uses the monotonic
reading), the single recorded duration is non-negative and, converted
back to nanoseconds, does not exceed the interval an external caller
measures around the whole request. -/
theorem c7_duration_bounds (inp : HandlerInput) (extStart extEnd : Int)
    (hmono : inp.tStartNs ≤ inp.tMeasureNs)
    (hbefore : extStart ≤ inp.tStartNs)
    (hafter : inp.tMeasureNs ≤ extEnd) :
    histogramRecords (go_handleRequest inp) =
      [(durationMsOf inp, goAttrs inp)] ∧
    0 ≤ durationMsOf inp ∧
    durationMsOf inp * 1000000 ≤ extEnd - extStart := by
  have hd : (0 : Int) ≤ inp.tMeasureNs - inp.tStartNs := by omega
  have heq : durationMsOf inp = (inp.tMeasureNs - inp.tStartNs) / 1000000 := by
    unfold durationMsOf
    exact Int.tdiv_eq_ediv hd (by norm_num)
  refine ⟨rfl, ?_, ?_⟩
  · rw [heq]
    positivity
  · rw [heq]
    have hle : (inp.tMeasureNs - inp.tStartNs) / 1000000 * 1000000 ≤
        inp.tMeasureNs - inp.tStartNs :=
      Int.ediv_mul_le _ (by norm_num)
    omega

/-- C7 witness: the duration bound instantiated at a concrete request
timed externally over the interval 0 to 3000000 nanoseconds. -/
theorem c7_duration_bounds_witness :
    histogramRecords (go_handleRequest sampleInput) =
      [(durationMsOf sampleInput, goAttrs sampleInput)] ∧
    0 ≤ durationMsOf sampleInput ∧
    durationMsOf sampleInput * 1000000 ≤ 3000000 - 0 :=
  c7_duration_bounds sampleInput 0 3000000 (by decide) (by decide) (by decide)

/-- C8: every run of the handler produces the same fixed response —
status 200, `Content-Type: text/plain`, body `Hello, World!` — for every
input, so the response depends on no part of the request. -/
theorem c8_fixed_response (inp : HandlerInput) :
    (go_handleRequest inp).response = some helloResponse := rfl

/-- C9: the pyroscope agent is started with the hardcoded server address
`http://localhost:4040` and application name `my-go-app` whatever the
process environment holds (the `PYROSCOPE_*` variables included), and the
startup sequence is identical whatever `pyroscope.Start` returns — both
of its return values are discarded. -/
theorem c9_pyroscope_hardcoded (envA envB : String → String)
    (rA rB : Except String Unit) :
    go_pyroscopeConfig envA =
      { applicationName := "my-go-app",
        serverAddress := "http://localhost:4040" } ∧
    go_pyroscopeConfig envA = go_pyroscopeConfig envB ∧
    go_mainStartup envA rA = go_mainStartup envA rB := ⟨rfl, rfl, rfl⟩

/-- C10: the handler's final label reset uses a fresh background context,
so the goroutine label set after the handler is the empty set for every
input — in particular, when labels existed on the goroutine before the
handler ran, they are wiped rather than restored. -/
theorem c10_labels_wiped (inp : HandlerInput)
    (h : inp.goroutineLabels0 ≠ []) :
    (go_handleRequest inp).finalLabels = [] ∧
    (go_handleRequest inp).finalLabels ≠ inp.goroutineLabels0 := by
  refine ⟨rfl, ?_⟩
  rw [go_handleRequest_def]
  exact fun hc => h hc.symm

/-- C10 witness: a concrete request entering with a pre-existing
goroutine label, which is gone afterwards. -/
theorem c10_labels_wiped_witness :
    (go_handleRequest sampleInputPrior).finalLabels = [] ∧
    (go_handleRequest sampleInputPrior).finalLabels ≠
      sampleInputPrior.goroutineLabels0 :=
  c10_labels_wiped sampleInputPrior (by decide)
